import Mathlib

/-!
Verification development for the image-metadata extraction engine in
`Lab2/Lab2.py` (class `ImageInfoExtractor`, plus the folder scanner and the
per-file processing loop).

The Python code calls three external collaborators: the PIL decoder
(`Image.open`), the filesystem (`os.stat`), and the PIL BMP encoder
(`img.save(buffer, format='BMP')`).  These are modelled as oracle functions
(`openImage`, `statSize`, `save_bmp`) returning `Except String _`, where the
`error` case stands for a raised Python exception carrying `str(e)`.

Python float arithmetic is idealised as exact rational arithmetic (`ℚ`), and
Python's `%.1f` / `%.2f` formatting as round-half-to-even fixed-point
formatting (`formatFixed`).
-/

namespace Lab2

/-- Python `str.lower()` (ASCII case mapping, which is all the code relies on). -/
def strLower (s : String) : String := String.mk (s.data.map Char.toLower)

/-- Python `str.capitalize()`: first character uppercased, the rest lowercased. -/
def pyCapitalize (s : String) : String :=
  match s.data with
  | [] => ""
  | c :: cs => String.mk (c.toUpper :: cs.map Char.toLower)

/-- Round a rational to the nearest integer, ties to even (the rounding used by
Python float formatting). -/
def roundHalfEven (q : ℚ) : Int :=
  let f : Int := ⌊q⌋
  let frac : ℚ := q - f
  if frac < 1/2 then f
  else if 1/2 < frac then f + 1
  else if f % 2 = 0 then f else f + 1

/-- Left-pad a digit string with zeros to width `w`. -/
def padZeros (w : Nat) (s : String) : String :=
  if s.length ≥ w then s else String.mk (List.replicate (w - s.length) '0') ++ s

/-- Python `f"{q:.df}"`: fixed-point rendering of a number with `d` digits after
the decimal point, round half to even. -/
def formatFixed (d : Nat) (q : ℚ) : String :=
  let scaled : Int := roundHalfEven (q * (10 ^ d))
  let sign := if scaled < 0 then "-" else ""
  let a := scaled.natAbs
  sign ++ toString (a / 10 ^ d) ++ "." ++ padZeros d (toString (a % 10 ^ d))

/-- A scalar Python value as it can occur as a component of the `dpi` metadata
entry.  PIL stores DPI components as numbers; numeric components are modelled
as integers (rendered in decimal, exactly as a Python f-string renders an
`int`), and string components render as themselves. -/
inductive PyScalar where
  | int : Int → PyScalar
  | str : String → PyScalar
deriving DecidableEq

/-- Python `str()` of a scalar metadata value, as interpolated by an f-string. -/
def PyScalar.toStr : PyScalar → String
  | .int n => toString n
  | .str s => s

/-- A Python value as it can occur under the `dpi` key of `img.info`: either a
scalar or a tuple of scalars (PIL stores DPI as a 2-tuple of numbers; other
shapes model malformed metadata). -/
inductive PyVal where
  | scalar : PyScalar → PyVal
  | tuple : List PyScalar → PyVal
deriving DecidableEq

/-- The slice of a PIL `Image` object that `ImageInfoExtractor` reads:
`img.format` (`None` or a format tag), `img.size`, `img.mode`, and the two
`img.info` entries the code consults (`'dpi'` and `'compression'`). -/
structure PILImage where
  format : Option String
  width : Nat
  height : Nat
  mode : String
  info_dpi : Option PyVal
  info_compression : Option String
deriving DecidableEq

/-- PIL `img.convert(mode)`: at this abstraction level, the result is the same
image with its color mode replaced. -/
def convert (img : PILImage) (mode : String) : PILImage := { img with mode := mode }

/-- The `mode_bits` table of `ImageInfoExtractor.get_color_depth`
(`Lab2.py` lines 88-91). -/
def mode_bits : List (String × Nat) :=
  [("1", 1), ("L", 8), ("P", 8), ("RGB", 24), ("RGBA", 32),
   ("CMYK", 32), ("YCbCr", 24), ("LAB", 24), ("HSV", 24), ("I", 32), ("F", 32)]

/-- `ImageInfoExtractor.get_color_depth` (`Lab2.py` lines 86-92):
`mode_bits.get(img.mode, f"Unknown ({img.mode})")`.  The Python return value is
heterogeneous (an `int` on a table hit, a `str` fallback otherwise), modelled
as a sum. -/
def get_color_depth (img : PILImage) : Sum Nat String :=
  match mode_bits.lookup img.mode with
  | some bits => Sum.inl bits
  | none => Sum.inr ("Unknown (" ++ img.mode ++ ")")

/-- `ImageInfoExtractor.get_dpi` (`Lab2.py` lines 94-98):
`img.info.get('dpi', (72, 72))`; a tuple of length 2 is rendered as
`f"{dpi[0]} × {dpi[1]}"`, anything else falls back to `"72 × 72"`. -/
def get_dpi (img : PILImage) : String :=
  let dpi := img.info_dpi.getD (PyVal.tuple [PyScalar.int 72, PyScalar.int 72])
  match dpi with
  | PyVal.tuple [a, b] => a.toStr ++ " × " ++ b.toStr
  | _ => "72 × 72"

/-- The `rgb_img` normalisation step of `calculate_jpeg_compression_ratio`
(`Lab2.py` lines 106-109): modes `'RGBA'`, `'LA'`, `'P'` are converted to
`'RGB'` before the BMP re-encode; every other mode is passed through. -/
def bmp_reencode_input (img : PILImage) : PILImage :=
  if img.mode = "RGBA" ∨ img.mode = "LA" ∨ img.mode = "P"
  then convert img "RGB" else img

/-- `ImageInfoExtractor.calculate_jpeg_compression_ratio`
(`Lab2.py` lines 100-123).  `save_bmp` is the PIL BMP encoder: it returns the
byte count written to the in-memory buffer (`buffer.tell()`), or the message of
a raised exception, which the `except` clause turns into `f"Error: {str(e)}"`.
In the success case, `uncompressed_size > 0` guards the division, computing
`((uncompressed_size - actual_file_size) / uncompressed_size) * 100` rendered
via `f"{...:.1f}%"`; otherwise the result is `"N/A"`. -/
def calculate_jpeg_compression_percent (save_bmp : PILImage → Except String Nat)
    (img : PILImage) (actual_file_size : Nat) : String :=
  match save_bmp (bmp_reencode_input img) with
  | Except.error e => "Error: " ++ e
  | Except.ok uncompressed_size =>
    if uncompressed_size > 0 then
      formatFixed 1
        (((uncompressed_size : ℚ) - (actual_file_size : ℚ)) / (uncompressed_size : ℚ) * 100)
        ++ "%"
    else "N/A"

/-- The `compression_map` table of the TIFF branch of `get_compression`
(`Lab2.py` lines 142-145). -/
def compression_map : List (String × String) :=
  [("jpeg", "JPEG"), ("deflate", "DEFLATE"), ("packbits", "PackBits"),
   ("lzw", "LZW"), ("none", "None"), ("raw", "RAW"), ("tiff_lzw", "TIFF LZW")]

/-- `ImageInfoExtractor.get_compression` (`Lab2.py` lines 125-158): dispatch on
`img.format` (`None` compares unequal to every tag).  The `file_path` argument
is accepted and unused, exactly as in the source. -/
def get_compression (save_bmp : PILImage → Except String Nat) (img : PILImage)
    (file_path : String) (actual_file_size : Nat) : String :=
  if img.format = some "JPEG" then
    calculate_jpeg_compression_percent save_bmp img actual_file_size
  else if img.format = some "PNG" then "0%"
  else if img.format = some "BMP" then "0%"
  else if img.format = some "TIFF" then
    let compression := img.info_compression.getD "None"
    match compression_map.lookup (strLower compression) with
    | some label => label
    | none => pyCapitalize compression
  else if img.format = some "GIF" then "LZW"
  else
    let compression := img.info_compression.getD "None"
    if compression ≠ "None" then pyCapitalize compression else "Unknown"

/-- `os.path.basename`: the final path component (after the last `'/'`). -/
def basename (path : String) : String :=
  String.mk (path.data.reverse.takeWhile (fun c => c ≠ '/')).reverse

/-- The external collaborators of `get_image_info`: the PIL decoder
(`Image.open`), the filesystem (`os.stat(...).st_size`), and the PIL BMP
encoder used inside the JPEG compression estimate.  An `Except.error` carries
the `str(e)` of a raised exception. -/
structure Env where
  openImage : String → Except String PILImage
  statSize : String → Except String Nat
  save_bmp : PILImage → Except String Nat

/-- The per-file record built by `get_image_info` (`Lab2.py` lines 58-71 on
success, 74-84 on failure).  The failure dictionary has no `'width'`,
`'height'` or `'mode'` keys, so those fields are `Option`s.  `color_depth` is
heterogeneous in Python (`int` or `str`), modelled as a sum with the `"Error"`
sentinel on the string side. -/
structure ImageRecord where
  filename : String
  filepath : String
  format : String
  width : Option Nat
  height : Option Nat
  size_str : String
  mode : Option String
  color_depth : Sum Nat String
  dpi : String
  compression : String
  file_size_mb : String
  error : Option String
deriving DecidableEq

/-- The dictionary returned by the `except` clause of `get_image_info`
(`Lab2.py` lines 74-84): every derived field carries the `'Error'` sentinel. -/
def errorRecord (file_path : String) (e : String) : ImageRecord :=
  { filename := basename file_path
    filepath := file_path
    error := some e
    format := "Error"
    width := none
    height := none
    size_str := "Error"
    mode := none
    dpi := "Error"
    color_depth := Sum.inr "Error"
    compression := "Error"
    file_size_mb := "Error" }

/-- The dictionary built on the success path of `get_image_info`
(`Lab2.py` lines 58-71). -/
def successRecord (save_bmp : PILImage → Except String Nat) (file_path : String)
    (img : PILImage) (actual_file_size : Nat) : ImageRecord :=
  { filename := basename file_path
    filepath := file_path
    format := img.format.getD "Unknown"
    width := some img.width
    height := some img.height
    size_str := toString img.width ++ " × " ++ toString img.height
    mode := some img.mode
    color_depth := get_color_depth img
    dpi := get_dpi img
    compression := get_compression save_bmp img file_path actual_file_size
    file_size_mb := formatFixed 2 ((actual_file_size : ℚ) / 1024 / 1024)
    error := none }

/-- `ImageInfoExtractor.get_image_info` (`Lab2.py` lines 51-84): `Image.open`
and `os.stat` both run inside the `try` block, so an exception from either one
produces the error record; only when both succeed is the success record
assembled. -/
def get_image_info (env : Env) (file_path : String) : ImageRecord :=
  match env.openImage file_path with
  | Except.error e => errorRecord file_path e
  | Except.ok img =>
    match env.statSize file_path with
    | Except.error e => errorRecord file_path e
    | Except.ok actual_file_size => successRecord env.save_bmp file_path img actual_file_size

/-- The processing loop of `scan_and_process_folder` (`Lab2.py` lines 233-245):
one `get_image_info` call per scanned path, appended in input order (the
progress-bar calls are UI-only). -/
def scan_and_process_folder (env : Env) (image_files : List String) : List ImageRecord :=
  image_files.map (get_image_info env)

/-- `os.path.splitext(name)[1]` for a bare file name (no directory
separators): the substring starting at the last `'.'`, unless every character
before that dot is itself a dot (so `".bashrc"` and `"..."` have extension
`""`). -/
def splitext_ext (name : String) : String :=
  let cs := name.data
  match ((List.range cs.length).filter (fun i => cs.get? i = some '.')).getLast? with
  | none => ""
  | some i => if (cs.take i).all (fun c => c = '.') then "" else String.mk (cs.drop i)

/-- The recognised extension set (`Lab2.py` lines 49 and 166; the two literals
are identical). -/
def supported_formats : List String :=
  [".jpg", ".jpeg", ".gif", ".tif", ".tiff", ".bmp", ".png", ".pcx"]

/-- The body of the `os.walk` loop in `scan_folder` (`Lab2.py` lines 164-170):
for each `(root, dirs, files)` triple yielded by the walk, append
`os.path.join(root, file)` for every file whose lowercased extension is
recognised, then stop early once at least 100000 paths are collected. -/
def scan_folder_loop :
    List (String × List String × List String) → List String → List String
  | [], image_files => image_files
  | (root, _dirs, files) :: rest, image_files =>
    let image_files := image_files ++
      (files.filter (fun file => decide (strLower (splitext_ext file) ∈ supported_formats))).map
        (fun file => root ++ "/" ++ file)
    if 100000 ≤ image_files.length then image_files
    else scan_folder_loop rest image_files

/-- `scan_folder` (`Lab2.py` lines 160-172), over the sequence of
`(root, dirs, files)` triples produced by `os.walk`: the loop above followed by
the final truncation `image_files[:100000]`. -/
def scan_folder (walk : List (String × List String × List String)) : List String :=
  (scan_folder_loop walk []).take 100000

/-- Whether a color mode carries an alpha channel, among the modes PIL's
decoders can produce (per the PIL documentation the decoded modes with alpha
are `'RGBA'` and `'LA'`). -/
def mode_has_alpha (mode : String) : Bool := mode == "RGBA" || mode == "LA"

/-- Whether a color mode is palette-indexed, among the modes PIL's decoders can
produce (`'P'`). -/
def mode_is_palette (mode : String) : Bool := mode == "P"

/-- The color modes a PIL `Image.open` can yield (the decoder-produced modes
listed in the PIL documentation; modes such as `'PA'` or `'RGBa'` arise only
from explicit `convert` calls, never from decoding). -/
def decoded_modes : List String :=
  ["1", "L", "LA", "P", "RGB", "RGBA", "CMYK", "YCbCr", "I", "F"]

/-! ### Concrete test fixtures -/

/-- A decoded JPEG image in RGB mode. -/
def testJpeg : PILImage :=
  { format := some "JPEG"
    width := 4
    height := 3
    mode := "RGB"
    info_dpi := none
    info_compression := none }

/-- A decoded PNG image. -/
def testPng : PILImage := { testJpeg with format := some "PNG" }

/-- A decoded BMP image. -/
def testBmp : PILImage := { testJpeg with format := some "BMP" }

/-- A decoded GIF image. -/
def testGif : PILImage := { testJpeg with format := some "GIF", mode := "P" }

/-- A decoded image in RGBA mode. -/
def imgRGBA : PILImage := { testJpeg with format := some "PNG", mode := "RGBA" }

/-- A decoded image in an unmapped color mode. -/
def imgXYZ : PILImage := { testJpeg with mode := "XYZ" }

/-- A decoded image whose `dpi` metadata is the negative pair `(-1, -1)`. -/
def imgNegDpi : PILImage :=
  { testJpeg with info_dpi := some (PyVal.tuple [PyScalar.int (-1), PyScalar.int (-1)]) }

/-! ### Claims -/

/-- C1: for a JPEG image whose in-memory BMP re-encode succeeds with byte
length `u > 0`, the compression estimator returns
`((u - actualFileSize) / u) * 100` formatted to one decimal place followed by
`'%'`; and when `u = 0` it returns `"N/A"` (the division branch is not
entered). -/
theorem C1_jpeg_percentage_formula (save_bmp : PILImage → Except String Nat)
    (img : PILImage) (file_path : String) (actual_file_size u : Nat)
    (hfmt : img.format = some "JPEG")
    (hsave : save_bmp (bmp_reencode_input img) = Except.ok u) :
    (0 < u → get_compression save_bmp img file_path actual_file_size =
        formatFixed 1 (((u : ℚ) - (actual_file_size : ℚ)) / (u : ℚ) * 100) ++ "%")
    ∧ (u = 0 → get_compression save_bmp img file_path actual_file_size = "N/A") := by
  constructor
  · intro hu
    simp [get_compression, hfmt, calculate_jpeg_compression_percent, hsave, hu]
  · intro hu
    subst hu
    simp [get_compression, hfmt, calculate_jpeg_compression_percent, hsave]

/-- Witness for C1 at `u = 1000, actualFileSize = 300` (giving `"70.0%"`) and
at `u = 0` (giving `"N/A"`). -/
theorem C1_jpeg_percentage_formula_witness :
    get_compression (fun _ => Except.ok 1000) testJpeg "t.jpg" 300 = "70.0%"
    ∧ get_compression (fun _ => Except.ok 0) testJpeg "t.jpg" 300 = "N/A" := by
  constructor
  · have h := (C1_jpeg_percentage_formula (fun _ => Except.ok 1000) testJpeg "t.jpg"
      300 1000 rfl rfl).1 (by norm_num)
    rw [h]
    norm_num [formatFixed, roundHalfEven, padZeros]
    rfl
  · exact (C1_jpeg_percentage_formula (fun _ => Except.ok 0) testJpeg "t.jpg"
      300 0 rfl rfl).2 rfl

/-- C3 counterexample: the DPI metadata `(-1, -1)` is a two-component pair that
is not positive, yet `get_dpi` renders it as `"-1 × -1"` instead of falling
back to `"72 × 72"` — the code checks only `isinstance(dpi, tuple)` and
`len(dpi) == 2`, never numericity or sign. -/
theorem C3_dpi_counterexample :
    get_dpi imgNegDpi = "-1 × -1" ∧ "-1 × -1" ≠ "72 × 72" := by
  exact ⟨rfl, by decide⟩

/-- C3 (amended): if the DPI metadata is any two-component tuple, `get_dpi`
returns `"X × Y"` with the components rendered exactly as they are (including
negative or non-numeric components); only missing, non-tuple, or wrong-arity
metadata yields `"72 × 72"`. -/
theorem C3_dpi_amended (img : PILImage) :
    (∀ a b, img.info_dpi = some (PyVal.tuple [a, b]) →
        get_dpi img = a.toStr ++ " × " ++ b.toStr)
    ∧ (img.info_dpi = none → get_dpi img = "72 × 72")
    ∧ (∀ s, img.info_dpi = some (PyVal.scalar s) → get_dpi img = "72 × 72")
    ∧ (∀ l, img.info_dpi = some (PyVal.tuple l) → l.length ≠ 2 →
        get_dpi img = "72 × 72") := by
  refine ⟨?_, ?_, ?_, ?_⟩
  · intro a b h
    simp [get_dpi, h]
  · intro h
    simp only [get_dpi, h, Option.getD_none]
    rfl
  · intro s h
    simp [get_dpi, h]
  · intro l h hl
    rcases l with _ | ⟨a, _ | ⟨b, _ | ⟨c, t⟩⟩⟩
    · simp [get_dpi, h]
    · simp [get_dpi, h]
    · exact absurd rfl hl
    · simp [get_dpi, h]

/-- Witness for the amended C3: a `(300, 300)` pair renders as `"300 × 300"`,
a wrong-arity tuple and a scalar fall back to `"72 × 72"`. -/
theorem C3_dpi_amended_witness :
    get_dpi { testJpeg with info_dpi := some (PyVal.tuple [PyScalar.int 300, PyScalar.int 300]) }
      = "300 × 300"
    ∧ get_dpi { testJpeg with info_dpi := some (PyVal.tuple [PyScalar.int 300]) } = "72 × 72"
    ∧ get_dpi { testJpeg with info_dpi := some (PyVal.scalar (PyScalar.int 300)) } = "72 × 72" := by
  refine ⟨?_, ?_, ?_⟩
  · exact (C3_dpi_amended _).1 (PyScalar.int 300) (PyScalar.int 300) rfl
  · exact (C3_dpi_amended _).2.2.2 [PyScalar.int 300] rfl (by decide)
  · exact (C3_dpi_amended _).2.2.1 (PyScalar.int 300) rfl

/-- C5: `get_color_depth` is total; on the eleven tabulated modes it returns
exactly the tabulated bit count, and on any other mode it returns a fallback
string containing the raw mode. -/
theorem C5_color_depth_table (img : PILImage) :
    (img.mode = "1" → get_color_depth img = Sum.inl 1)
    ∧ (img.mode = "L" → get_color_depth img = Sum.inl 8)
    ∧ (img.mode = "P" → get_color_depth img = Sum.inl 8)
    ∧ (img.mode = "RGB" → get_color_depth img = Sum.inl 24)
    ∧ (img.mode = "RGBA" → get_color_depth img = Sum.inl 32)
    ∧ (img.mode = "CMYK" → get_color_depth img = Sum.inl 32)
    ∧ (img.mode = "YCbCr" → get_color_depth img = Sum.inl 24)
    ∧ (img.mode = "LAB" → get_color_depth img = Sum.inl 24)
    ∧ (img.mode = "HSV" → get_color_depth img = Sum.inl 24)
    ∧ (img.mode = "I" → get_color_depth img = Sum.inl 32)
    ∧ (img.mode = "F" → get_color_depth img = Sum.inl 32)
    ∧ (img.mode ∉ ["1", "L", "P", "RGB", "RGBA", "CMYK", "YCbCr", "LAB", "HSV", "I", "F"] →
        get_color_depth img = Sum.inr ("Unknown (" ++ img.mode ++ ")")
        ∧ ∃ l r, get_color_depth img = Sum.inr (l ++ img.mode ++ r)) := by
  refine ⟨?_, ?_, ?_, ?_, ?_, ?_, ?_, ?_, ?_, ?_, ?_, ?unmapped⟩
  case unmapped =>
    intro h
    simp only [List.mem_cons, List.not_mem_nil, or_false, not_or] at h
    obtain ⟨h1, h2, h3, h4, h5, h6, h7, h8, h9, h10, h11⟩ := h
    have hnone : mode_bits.lookup img.mode = none := by
      simp [mode_bits, List.lookup, beq_eq_false_iff_ne.mpr h1,
        beq_eq_false_iff_ne.mpr h2, beq_eq_false_iff_ne.mpr h3,
        beq_eq_false_iff_ne.mpr h4, beq_eq_false_iff_ne.mpr h5,
        beq_eq_false_iff_ne.mpr h6, beq_eq_false_iff_ne.mpr h7,
        beq_eq_false_iff_ne.mpr h8, beq_eq_false_iff_ne.mpr h9,
        beq_eq_false_iff_ne.mpr h10, beq_eq_false_iff_ne.mpr h11]
    exact ⟨by simp [get_color_depth, hnone], "Unknown (", ")",
      by simp [get_color_depth, hnone]⟩
  all_goals intro h
  all_goals simp [get_color_depth, mode_bits, List.lookup, h]

/-- Witness for C5: `"RGB"` maps to 24 bits, and the unmapped mode `"XYZ"`
yields a fallback containing `"XYZ"`. -/
theorem C5_color_depth_table_witness :
    get_color_depth testJpeg = Sum.inl 24
    ∧ ∃ l r, get_color_depth imgXYZ = Sum.inr (l ++ "XYZ" ++ r) := by
  constructor
  · exact (C5_color_depth_table testJpeg).2.2.2.1 rfl
  · exact ((C5_color_depth_table imgXYZ).2.2.2.2.2.2.2.2.2.2.2 (by decide)).2

/-- C6: the compression estimator returns the constant `"0%"` for the `PNG`
and `BMP` format tags and the constant `"LZW"` for `GIF`, regardless of image
content, metadata, or the BMP encoder's behaviour. -/
theorem C6_fixed_compression_labels (save_bmp : PILImage → Except String Nat)
    (img : PILImage) (file_path : String) (actual_file_size : Nat) :
    ((img.format = some "PNG" ∨ img.format = some "BMP") →
        get_compression save_bmp img file_path actual_file_size = "0%")
    ∧ (img.format = some "GIF" →
        get_compression save_bmp img file_path actual_file_size = "LZW") := by
  constructor
  · rintro (h | h) <;> simp [get_compression, h]
  · intro h
    simp [get_compression, h]

/-- Witness for C6 on concrete PNG, BMP and GIF images. -/
theorem C6_fixed_compression_labels_witness :
    get_compression (fun _ => Except.ok 9) testPng "p" 5 = "0%"
    ∧ get_compression (fun _ => Except.ok 9) testBmp "p" 5 = "0%"
    ∧ get_compression (fun _ => Except.ok 9) testGif "p" 5 = "LZW" := by
  refine ⟨?_, ?_, ?_⟩
  · exact (C6_fixed_compression_labels _ testPng "p" 5).1 (Or.inl rfl)
  · exact (C6_fixed_compression_labels _ testBmp "p" 5).1 (Or.inr rfl)
  · exact (C6_fixed_compression_labels _ testGif "p" 5).2 rfl

/-- C10: the computed ratio is not clamped to 0-100: when the on-disk size
(900) exceeds the uncompressed BMP size (800), the estimator reports the
negative percentage `"-12.5%"`. -/
theorem C10_negative_percentage :
    800 < 900
    ∧ calculate_jpeg_compression_percent (fun _ => Except.ok 800) testJpeg 900
        = "-12.5%" := by
  constructor
  · norm_num
  · unfold calculate_jpeg_compression_percent
    norm_num [formatFixed, roundHalfEven, padZeros]
    rfl

/-- C2: the processing loop yields exactly one record per input path, in input
order (`record i` is a function of `path i` alone), and a path whose decode
raises yields the error record — every derived field the `'Error'` sentinel —
without affecting any other path's record. -/
theorem C2_pipeline_per_path (env : Env) (paths : List String) :
    (scan_and_process_folder env paths).length = paths.length
    ∧ (∀ (i : Nat) (p : String), paths[i]? = some p →
        (scan_and_process_folder env paths)[i]? = some (get_image_info env p))
    ∧ (∀ p e, env.openImage p = Except.error e →
        get_image_info env p = errorRecord p e
        ∧ (errorRecord p e).error = some e
        ∧ (errorRecord p e).format = "Error"
        ∧ (errorRecord p e).size_str = "Error"
        ∧ (errorRecord p e).dpi = "Error"
        ∧ (errorRecord p e).color_depth = Sum.inr "Error"
        ∧ (errorRecord p e).compression = "Error"
        ∧ (errorRecord p e).file_size_mb = "Error") := by
  refine ⟨List.length_map _ _, ?_, ?_⟩
  · intro i p h
    simp [scan_and_process_folder, List.getElem?_map, h]
  · intro p e h
    exact ⟨by simp [get_image_info, h], rfl, rfl, rfl, rfl, rfl, rfl, rfl⟩

/-- An environment in which `"bad.jpg"` fails to decode and every other path
decodes to `testPng`. -/
def envBad : Env :=
  { openImage := fun p => if p = "bad.jpg" then Except.error "broken" else Except.ok testPng
    statSize := fun _ => Except.ok 2048
    save_bmp := fun _ => Except.ok 1000 }

/-- Witness for C2 on the two-path batch `["good.png", "bad.jpg"]`. -/
theorem C2_pipeline_per_path_witness :
    (scan_and_process_folder envBad ["good.png", "bad.jpg"]).length = 2
    ∧ (scan_and_process_folder envBad ["good.png", "bad.jpg"])[1]?
        = some (get_image_info envBad "bad.jpg")
    ∧ get_image_info envBad "bad.jpg" = errorRecord "bad.jpg" "broken" := by
  refine ⟨(C2_pipeline_per_path envBad ["good.png", "bad.jpg"]).1, ?_, ?_⟩
  · exact (C2_pipeline_per_path envBad ["good.png", "bad.jpg"]).2.1 1 "bad.jpg" rfl
  · exact ((C2_pipeline_per_path envBad ["good.png", "bad.jpg"]).2.2 "bad.jpg" "broken" rfl).1

/-- C4 counterexample: the decode of `"x.jpg"` fails while the filesystem size
is available (`os.stat` would report 1048576 bytes, i.e. `"1.00"` MB), yet the
record's file-size field carries the `'Error'` sentinel, not the byte size:
`os.stat` runs inside the `try` block only after `Image.open` succeeds. -/
theorem C4_file_size_counterexample :
    (get_image_info
        { openImage := fun _ => Except.error "cannot identify image file"
          statSize := fun _ => Except.ok 1048576
          save_bmp := fun _ => Except.ok 1000 } "x.jpg").file_size_mb = "Error"
    ∧ formatFixed 2 ((1048576 : ℚ) / 1024 / 1024) = "1.00"
    ∧ (get_image_info
        { openImage := fun _ => Except.error "cannot identify image file"
          statSize := fun _ => Except.ok 1048576
          save_bmp := fun _ => Except.ok 1000 } "x.jpg").file_size_mb ≠ "1.00" := by
  refine ⟨rfl, ?_, by decide⟩
  norm_num [formatFixed, roundHalfEven, padZeros]
  rfl

/-- C4 (amended): the on-disk byte size is read and reported (in MB, to two
decimals) only when the decode succeeds; when opening/decoding — or the size
read itself — fails, the file-size field carries the `'Error'` sentinel like
the other derived fields. -/
theorem C4_file_size_amended (env : Env) (p : String) :
    (∀ e, env.openImage p = Except.error e →
        (get_image_info env p).file_size_mb = "Error")
    ∧ (∀ img sz, env.openImage p = Except.ok img → env.statSize p = Except.ok sz →
        (get_image_info env p).file_size_mb = formatFixed 2 ((sz : ℚ) / 1024 / 1024))
    ∧ (∀ img e, env.openImage p = Except.ok img → env.statSize p = Except.error e →
        (get_image_info env p).file_size_mb = "Error") := by
  refine ⟨?_, ?_, ?_⟩
  · intro e h
    simp [get_image_info, h, errorRecord]
  · intro img sz h1 h2
    simp [get_image_info, h1, h2, successRecord]
  · intro img e h1 h2
    simp [get_image_info, h1, h2, errorRecord]

/-- Witness for the amended C4: the failing decode yields the sentinel, and a
1 MiB file that decodes reports `"1.00"`. -/
theorem C4_file_size_amended_witness :
    (get_image_info envBad "bad.jpg").file_size_mb = "Error"
    ∧ (get_image_info envBad "good.png").file_size_mb
        = formatFixed 2 ((2048 : ℚ) / 1024 / 1024) := by
  constructor
  · exact (C4_file_size_amended envBad "bad.jpg").1 "broken" rfl
  · exact (C4_file_size_amended envBad "good.png").2.1 testPng 2048 rfl rfl

/-- C7: among the color modes a PIL decode can produce, the BMP re-encode
source is converted to plain `"RGB"` exactly when the mode carries an alpha
channel (`RGBA`, `LA`) or is palette-indexed (`P`); every other decoded mode is
re-encoded unchanged. -/
theorem C7_jpeg_mode_normalisation (img : PILImage) (h : img.mode ∈ decoded_modes) :
    ((mode_has_alpha img.mode || mode_is_palette img.mode) = true →
        bmp_reencode_input img = convert img "RGB"
        ∧ (bmp_reencode_input img).mode = "RGB")
    ∧ ((mode_has_alpha img.mode || mode_is_palette img.mode) = false →
        bmp_reencode_input img = img) := by
  simp only [decoded_modes, List.mem_cons, List.not_mem_nil, or_false] at h
  rcases h with h | h | h | h | h | h | h | h | h | h <;>
    simp [mode_has_alpha, mode_is_palette, bmp_reencode_input, convert, h]

/-- Witness for C7: an `RGBA` image is normalised to `RGB`, an `RGB` image is
passed through unchanged. -/
theorem C7_jpeg_mode_normalisation_witness :
    bmp_reencode_input imgRGBA = convert imgRGBA "RGB"
    ∧ bmp_reencode_input testJpeg = testJpeg := by
  constructor
  · exact ((C7_jpeg_mode_normalisation imgRGBA (by decide)).1 (by decide)).1
  · exact (C7_jpeg_mode_normalisation testJpeg (by decide)).2 (by decide)

/-- Every path accumulated by the scanner loop is a joined `root ++ "/" ++ file`
whose lowercased extension is recognised, provided that already holds of the
accumulator. -/
theorem scan_folder_loop_mem (walk : List (String × List String × List String)) :
    ∀ acc, (∀ q ∈ acc, ∃ root file, q = root ++ "/" ++ file
        ∧ strLower (splitext_ext file) ∈ supported_formats) →
    ∀ p ∈ scan_folder_loop walk acc, ∃ root file, p = root ++ "/" ++ file
        ∧ strLower (splitext_ext file) ∈ supported_formats := by
  induction walk with
  | nil =>
    intro acc hacc p hp
    exact hacc p hp
  | cons entry rest ih =>
    obtain ⟨root, dirs, files⟩ := entry
    intro acc hacc p hp
    have hacc2 : ∀ q ∈ acc ++
        (files.filter (fun file =>
          decide (strLower (splitext_ext file) ∈ supported_formats))).map
          (fun file => root ++ "/" ++ file),
        ∃ root file, q = root ++ "/" ++ file
          ∧ strLower (splitext_ext file) ∈ supported_formats := by
      intro q hq
      rcases List.mem_append.mp hq with hq | hq
      · exact hacc q hq
      · obtain ⟨file, hfile, rfl⟩ := List.mem_map.mp hq
        exact ⟨root, file, rfl, of_decide_eq_true (List.mem_filter.mp hfile).2⟩
    rw [scan_folder_loop] at hp
    split at hp
    · exact hacc2 p hp
    · exact ih _ hacc2 p hp

/-- C8: for every walk of a directory tree, the scanner returns at most 100000
paths, and every returned path is a joined `root/file` whose lowercased
extension lies in the fixed recognised set. -/
theorem C8_scan_folder_bound (walk : List (String × List String × List String)) :
    (scan_folder walk).length ≤ 100000
    ∧ ∀ p ∈ scan_folder walk, ∃ root file, p = root ++ "/" ++ file
        ∧ strLower (splitext_ext file) ∈ supported_formats := by
  constructor
  · exact (scan_folder_loop walk []).length_take_le 100000
  · intro p hp
    exact scan_folder_loop_mem walk [] (by simp) p (List.take_subset _ _ hp)

/-- Witness for C8: scanning a root containing `a.JPG` (recognised,
case-insensitively) and `b.txt` (not recognised) returns exactly `"r/a.JPG"`,
which the theorem certifies. -/
theorem C8_scan_folder_bound_witness :
    scan_folder [("r", [], ["a.JPG", "b.txt"])] = ["r/a.JPG"]
    ∧ (scan_folder [("r", [], ["a.JPG", "b.txt"])]).length ≤ 100000
    ∧ ∃ root file, "r/a.JPG" = root ++ "/" ++ file
        ∧ strLower (splitext_ext file) ∈ supported_formats := by
  refine ⟨by decide, (C8_scan_folder_bound _).1, ?_⟩
  exact (C8_scan_folder_bound [("r", [], ["a.JPG", "b.txt"])]).2 "r/a.JPG" (by decide)

/-- C9: every record is either fully successful (`error = none` and all fields
as derived on the success path) or fully failed (`error` set and every derived
field the `'Error'` sentinel) — with the one sanctioned exception that a
failing BMP re-encode during JPEG estimation leaves `error = none` and only the
compression field carrying an error-described string, while dimensions, color
depth and DPI stay valid. -/
theorem C9_record_invariant (env : Env) (p : String) :
    ((∃ img sz, env.openImage p = Except.ok img ∧ env.statSize p = Except.ok sz
        ∧ get_image_info env p = successRecord env.save_bmp p img sz
        ∧ (get_image_info env p).error = none)
      ∨ (∃ e, get_image_info env p = errorRecord p e
          ∧ (get_image_info env p).error = some e
          ∧ (get_image_info env p).format = "Error"
          ∧ (get_image_info env p).size_str = "Error"
          ∧ (get_image_info env p).dpi = "Error"
          ∧ (get_image_info env p).color_depth = Sum.inr "Error"
          ∧ (get_image_info env p).compression = "Error"
          ∧ (get_image_info env p).file_size_mb = "Error"))
    ∧ (∀ img sz e, env.openImage p = Except.ok img → env.statSize p = Except.ok sz →
        img.format = some "JPEG" →
        env.save_bmp (bmp_reencode_input img) = Except.error e →
        (get_image_info env p).error = none
        ∧ (get_image_info env p).compression = "Error: " ++ e
        ∧ (get_image_info env p).size_str
            = toString img.width ++ " × " ++ toString img.height
        ∧ (get_image_info env p).dpi = get_dpi img
        ∧ (get_image_info env p).color_depth = get_color_depth img) := by
  constructor
  · rcases hopen : env.openImage p with e | img
    · refine Or.inr ⟨e, ?_, ?_, ?_, ?_, ?_, ?_, ?_, ?_⟩ <;>
        simp [get_image_info, hopen, errorRecord]
    · rcases hstat : env.statSize p with e | sz
      · refine Or.inr ⟨e, ?_, ?_, ?_, ?_, ?_, ?_, ?_, ?_⟩ <;>
          simp [get_image_info, hopen, hstat, errorRecord]
      · refine Or.inl ⟨img, sz, rfl, rfl, ?_, ?_⟩ <;>
          simp [get_image_info, hopen, hstat, successRecord]
  · intro img sz e hopen hstat hfmt hsave
    simp [get_image_info, hopen, hstat, successRecord, get_compression, hfmt,
      calculate_jpeg_compression_percent, hsave]

/-- An environment whose BMP encoder always fails, for the C9 exception. -/
def envEncFail : Env :=
  { openImage := fun _ => Except.ok testJpeg
    statSize := fun _ => Except.ok 2048
    save_bmp := fun _ => Except.error "encoder boom" }

/-- Witness for C9: a JPEG whose re-encode fails yields `error = none`, an
error-described compression string, and valid dimensions, DPI and depth. -/
theorem C9_record_invariant_witness :
    (get_image_info envEncFail "x.jpg").error = none
    ∧ (get_image_info envEncFail "x.jpg").compression = "Error: encoder boom"
    ∧ (get_image_info envEncFail "x.jpg").size_str = "4 × 3"
    ∧ (get_image_info envEncFail "x.jpg").color_depth = Sum.inl 24 := by
  have h := (C9_record_invariant envEncFail "x.jpg").2 testJpeg 2048 "encoder boom"
    rfl rfl rfl rfl
  exact ⟨h.1, h.2.1, h.2.2.1, h.2.2.2.2⟩

end Lab2
